/-
Verification of the trade-conductor landing-page widgets.

Source: src/scripts/live-pnl.js.  Two independent components are embedded:

* `LiveTicker` — the "Heartbeat" random-walk simulator.  Its arithmetic is
  purely rational (additions, multiplications, comparisons), so the state is
  modelled over `ℚ` and every random draw of the JavaScript code
  (`Math.random()`) becomes an explicit parameter in `[0,1)`.

* The crash simulator's `generatePaths` — a deterministic path generator
  driven by a volatility scalar.  It uses `Math.sin`, so it is modelled
  over `ℝ` with `Real.sin`.
-/
import Mathlib

namespace LiveTicker

/-- The mutable state of the ticker: `startValue`, `currentValue`,
`volatility` and `driftBias`, as set up in the constructor of `LiveTicker`. -/
structure TickerState where
  startValue : ℚ
  currentValue : ℚ
  volatility : ℚ
  driftBias : ℚ
  deriving DecidableEq, Repr

/-- `LiveTicker.calculateNextValue`.  The four `Math.random()` draws are the
parameters `r1` (direction), `r2` (magnitude), `r3` (drift-resample gate) and
`r4` (drift sign), each intended to lie in `[0,1)`:

```js
const direction = Math.random() > 0.5 ? 1 : -1;
let change = (Math.random() * this.volatility) + 0.05;
if (Math.random() > 0.9) {
  this.driftBias = Math.random() > 0.5 ? 0.5 : -0.5;
}
change += this.driftBias;
const diff = this.currentValue - this.startValue;
if (Math.abs(diff) > 500) {
  change = -1 * (diff * 0.1);
}
this.currentValue += (change * direction);
```
-/
def calculateNextValue (s : TickerState) (r1 r2 r3 r4 : ℚ) : TickerState :=
  let direction : ℚ := if r1 > 0.5 then 1 else -1
  let change : ℚ := (r2 * s.volatility) + 0.05
  let driftBias : ℚ := if r3 > 0.9 then (if r4 > 0.5 then 0.5 else -0.5) else s.driftBias
  let change : ℚ := change + driftBias
  let diff : ℚ := s.currentValue - s.startValue
  let change : ℚ := if |diff| > 500 then -1 * (diff * 0.1) else change
  { s with currentValue := s.currentValue + (change * direction), driftBias := driftBias }

/-- `LiveTicker.getNextInterval`; the `Math.random()` draw is the parameter
`r`, intended to lie in `[0,1)`:

```js
const min = 800;
const max = 2400;
return Math.floor(Math.random() * (max - min + 1) + min);
```
-/
def getNextInterval (r : ℚ) : ℤ :=
  ⌊r * (2400 - 800 + 1) + 800⌋

/-- Unfolding lemma: the new `currentValue` produced by one tick. -/
lemma calculateNextValue_currentValue (s : TickerState) (r1 r2 r3 r4 : ℚ) :
    (calculateNextValue s r1 r2 r3 r4).currentValue =
      s.currentValue +
        (if |s.currentValue - s.startValue| > 500 then
            -1 * ((s.currentValue - s.startValue) * 0.1)
          else
            (r2 * s.volatility) + 0.05 +
              (if r3 > 0.9 then (if r4 > 0.5 then 0.5 else -0.5) else s.driftBias)) *
        (if r1 > 0.5 then 1 else -1) := rfl

/-- Claim C1, counterexample.  Start in state `startValue = 0`,
`currentValue = 501` (so `diff = 501` and `|diff| > 500`), and draw
`r1 = 0` (hence `direction = -1`).  The tick applies
`change * direction = (-50.1) * (-1) = 50.1 > 0`, which has the SAME sign
as `diff = 501 > 0`: the tick moves `currentValue` strictly AWAY from
`startValue` for this outcome of the draws, so the change applied is not
of opposite sign to `diff` for every outcome. -/
theorem tick_reversion_direction_flip_cex :
    500 < |(⟨0, 501, 5, 0⟩ : TickerState).currentValue - (⟨0, 501, 5, 0⟩ : TickerState).startValue| ∧
    0 < (⟨0, 501, 5, 0⟩ : TickerState).currentValue - (⟨0, 501, 5, 0⟩ : TickerState).startValue ∧
    0 < (calculateNextValue ⟨0, 501, 5, 0⟩ 0 0 0 0).currentValue -
        (⟨0, 501, 5, 0⟩ : TickerState).currentValue := by
  refine ⟨by norm_num, by norm_num, ?_⟩
  norm_num [calculateNextValue]

/-- Claim C1, amended.  When `|diff| > 500` at the start of a tick, the
computed `change` variable is `-(0.1 * diff)` (opposite sign to `diff`) for
every outcome of the draws, but the value actually added to `currentValue`
is `change * direction`: when `r1 > 0.5` (direction `+1`) the tick adds
`-(0.1 * diff)` and moves strictly toward `startValue`; when `r1 ≤ 0.5`
(direction `-1`) it adds `+(0.1 * diff)`, moving away. -/
theorem tick_reversion_change_characterization (s : TickerState) (r1 r2 r3 r4 : ℚ)
    (h : 500 < |s.currentValue - s.startValue|) :
    (0.5 < r1 →
      (calculateNextValue s r1 r2 r3 r4).currentValue - s.currentValue =
        -(0.1 * (s.currentValue - s.startValue)) ∧
      |(calculateNextValue s r1 r2 r3 r4).currentValue - s.startValue| <
        |s.currentValue - s.startValue|) ∧
    (¬ 0.5 < r1 →
      (calculateNextValue s r1 r2 r3 r4).currentValue - s.currentValue =
        0.1 * (s.currentValue - s.startValue)) := by
  constructor
  · intro h1
    have hdiff : (calculateNextValue s r1 r2 r3 r4).currentValue - s.startValue =
        0.9 * (s.currentValue - s.startValue) := by
      rw [calculateNextValue_currentValue, if_pos h, if_pos h1]; ring
    constructor
    · rw [calculateNextValue_currentValue, if_pos h, if_pos h1]; ring
    · rw [hdiff, abs_mul]
      have h09 : |(0.9 : ℚ)| = 0.9 := by norm_num
      rw [h09]
      nlinarith [h]
  · intro h1
    rw [calculateNextValue_currentValue, if_pos h, if_neg h1]; ring

/-- Witness for `tick_reversion_change_characterization`:
state `⟨0, 501, 5, 0⟩` with draw `r1 = 1`. -/
theorem tick_reversion_change_characterization_wit :
    (0.5 < (1 : ℚ) →
      (calculateNextValue ⟨0, 501, 5, 0⟩ 1 0 0 0).currentValue -
          (⟨0, 501, 5, 0⟩ : TickerState).currentValue =
        -(0.1 * ((⟨0, 501, 5, 0⟩ : TickerState).currentValue -
          (⟨0, 501, 5, 0⟩ : TickerState).startValue)) ∧
      |(calculateNextValue ⟨0, 501, 5, 0⟩ 1 0 0 0).currentValue -
          (⟨0, 501, 5, 0⟩ : TickerState).startValue| <
        |(⟨0, 501, 5, 0⟩ : TickerState).currentValue -
          (⟨0, 501, 5, 0⟩ : TickerState).startValue|) ∧
    (¬ 0.5 < (1 : ℚ) →
      (calculateNextValue ⟨0, 501, 5, 0⟩ 1 0 0 0).currentValue -
          (⟨0, 501, 5, 0⟩ : TickerState).currentValue =
        0.1 * ((⟨0, 501, 5, 0⟩ : TickerState).currentValue -
          (⟨0, 501, 5, 0⟩ : TickerState).startValue)) :=
  tick_reversion_change_characterization ⟨0, 501, 5, 0⟩ 1 0 0 0 (by norm_num)

/-- Claim C10.  In state `⟨0, 0, 5, 0⟩` (so `|diff| = 0 ≤ 500`) with draws
`r1 = 1` (direction `+1`), `r3 = 0.95` (resample the drift bias) and
`r4 = 0` (bias becomes `-0.5`), the computed `change = r2 * 5 + 0.05 - 0.5`
is: negative (`-0.45` at `r2 = 0`), so the applied step moves opposite to
the sampled direction; of magnitude `0.01 < 0.05` at `r2 = 0.088`, below the
stated baseline minimum; and exactly zero at `r2 = 0.09`. -/
theorem tick_change_negative_small_zero_cases :
    |(⟨0, 0, 5, 0⟩ : TickerState).currentValue - (⟨0, 0, 5, 0⟩ : TickerState).startValue| ≤ 500 ∧
    (calculateNextValue ⟨0, 0, 5, 0⟩ 1 0 0.95 0).currentValue -
        (⟨0, 0, 5, 0⟩ : TickerState).currentValue = -0.45 ∧
    (calculateNextValue ⟨0, 0, 5, 0⟩ 1 0.088 0.95 0).currentValue -
        (⟨0, 0, 5, 0⟩ : TickerState).currentValue = -0.01 ∧
    |(calculateNextValue ⟨0, 0, 5, 0⟩ 1 0.088 0.95 0).currentValue -
        (⟨0, 0, 5, 0⟩ : TickerState).currentValue| < 0.05 ∧
    (calculateNextValue ⟨0, 0, 5, 0⟩ 1 0.09 0.95 0).currentValue -
        (⟨0, 0, 5, 0⟩ : TickerState).currentValue = 0 := by
  refine ⟨by norm_num, ?_, ?_, ?_, ?_⟩ <;> norm_num [calculateNextValue, abs_lt]

/-- Claim C8.  For every draw `r ∈ [0,1)`, `getNextInterval r` is an
integer in `[800, 2400]`, and both endpoints are attained: at `r = 0` the
result is `800`, and at `r = 1600/1601` the result is `2400`. -/
theorem getNextInterval_range_and_endpoints :
    (∀ r : ℚ, 0 ≤ r → r < 1 → 800 ≤ getNextInterval r ∧ getNextInterval r ≤ 2400) ∧
    getNextInterval 0 = 800 ∧ getNextInterval (1600 / 1601) = 2400 := by
  refine ⟨fun r h0 h1 => ⟨?_, ?_⟩, ?_, ?_⟩
  · rw [getNextInterval, Int.le_floor]
    push_cast
    nlinarith
  · have hlt : getNextInterval r < 2401 := by
      rw [getNextInterval, Int.floor_lt]
      push_cast
      nlinarith
    omega
  · norm_num [getNextInterval]
  · norm_num [getNextInterval]

/-- Witness for `getNextInterval_range_and_endpoints`: draw `r = 1/2`. -/
theorem getNextInterval_range_apply :
    800 ≤ getNextInterval (1 / 2) ∧ getNextInterval (1 / 2) ≤ 2400 :=
  getNextInterval_range_and_endpoints.1 (1 / 2) (by norm_num) (by norm_num)

end LiveTicker

namespace CrashSim

/-- Constants of the crash simulator, mapping to the SVG view box
`0 0 800 350` (`src/scripts/live-pnl.js`). -/
noncomputable def WIDTH : ℝ := 800

/-- `const HEIGHT = 350`. -/
noncomputable def HEIGHT : ℝ := 350

/-- `const START_Y = 150` — the 0% baseline. -/
noncomputable def START_Y : ℝ := 150

/-- `const STOP_LOSS_DELTA = 30` — a ~10% drop triggers cash. -/
noncomputable def STOP_LOSS_DELTA : ℝ := 30

/-- `const STOP_LOSS_Y = START_Y + STOP_LOSS_DELTA`. -/
noncomputable def STOP_LOSS_Y : ℝ := START_Y + STOP_LOSS_DELTA

/-- `const steps = 20` — number of loop iterations in `generatePaths`. -/
def steps : ℕ := 20

/-- `const stepSize = WIDTH / steps`. -/
noncomputable def stepSize : ℝ := WIDTH / (steps : ℝ)

/-- The x coordinate of sample `i`: `const x = i * stepSize`. -/
noncomputable def sampleX (i : ℕ) : ℝ := (i : ℝ) * stepSize

/-- `const noise = Math.sin(x / 50) * 10`. -/
noncomputable def noise (x : ℝ) : ℝ := Real.sin (x / 50) * 10

/-- `const crashDrop = (Math.pow(x / WIDTH, 2) * 200) * factor` with
`factor = volatility / 100`. -/
noncomputable def crashDrop (volatility x : ℝ) : ℝ :=
  ((x / WIDTH) ^ 2 * 200) * (volatility / 100)

/-- The per-sample unprotected y:
`let y = START_Y + noise + crashDrop; y = Math.min(Math.max(y, 0), 350)`. -/
noncomputable def clampedY (volatility x : ℝ) : ℝ :=
  min (max (START_Y + noise x + crashDrop volatility x) 0) 350

/-- The data accumulated by the loop of `generatePaths` and returned from
it: the two point sequences, the stop flag and the stop x coordinate.
(The SVG path strings built alongside are string formatting of the same
points and are out of scope; `finalUnpY` is the projection of the last
element of `unpPoints`.) -/
structure ChartResult where
  unpPoints : List (ℝ × ℝ)
  protPoints : List (ℝ × ℝ)
  isStoppedOut : Bool
  stopOutX : ℝ

/-- One iteration of the `for (let i = 1; i <= steps; i++)` loop body of
`generatePaths`:

```js
unpPoints.push([x, y]);
if (!isStoppedOut) {
  if (y >= STOP_LOSS_Y) {
    isStoppedOut = true; stopOutX = x;
    protPoints.push([x, STOP_LOSS_Y]);
  } else {
    protPoints.push([x, y]);
  }
} else {
  protPoints.push([x, STOP_LOSS_Y]);
}
```
-/
noncomputable def genStep (volatility : ℝ) (st : ChartResult) (i : ℕ) : ChartResult :=
  if st.isStoppedOut then
    { unpPoints := st.unpPoints ++ [(sampleX i, clampedY volatility (sampleX i))],
      protPoints := st.protPoints ++ [(sampleX i, STOP_LOSS_Y)],
      isStoppedOut := st.isStoppedOut,
      stopOutX := st.stopOutX }
  else if STOP_LOSS_Y ≤ clampedY volatility (sampleX i) then
    { unpPoints := st.unpPoints ++ [(sampleX i, clampedY volatility (sampleX i))],
      protPoints := st.protPoints ++ [(sampleX i, STOP_LOSS_Y)],
      isStoppedOut := true,
      stopOutX := sampleX i }
  else
    { unpPoints := st.unpPoints ++ [(sampleX i, clampedY volatility (sampleX i))],
      protPoints := st.protPoints ++ [(sampleX i, clampedY volatility (sampleX i))],
      isStoppedOut := st.isStoppedOut,
      stopOutX := st.stopOutX }

/-- The loop of `generatePaths`, unrolled from the initial state
`unpPoints = protPoints = [[0, START_Y]]`, `isStoppedOut = false`,
`stopOutX = 0`; `genLoop v n` is the state after iterations `1 .. n`. -/
noncomputable def genLoop (volatility : ℝ) : ℕ → ChartResult
  | 0 =>
    { unpPoints := [(0, START_Y)], protPoints := [(0, START_Y)],
      isStoppedOut := false, stopOutX := 0 }
  | n + 1 => genStep volatility (genLoop volatility n) (n + 1)

/-- `generatePaths(volatility)`: run the loop for `steps` iterations. -/
noncomputable def generatePaths (volatility : ℝ) : ChartResult :=
  genLoop volatility steps

/-- Sample `i` reaches the stop-loss threshold. -/
def Hit (volatility : ℝ) (i : ℕ) : Prop :=
  STOP_LOSS_Y ≤ clampedY volatility (sampleX i)

open Classical in
/-- Closed form of the protected trajectory's y at sample `j`: the
threshold once some sample `≤ j` has hit it, the unprotected y before. -/
noncomputable def protY (volatility : ℝ) (j : ℕ) : ℝ :=
  if ∃ i, i ≤ j ∧ Hit volatility i then STOP_LOSS_Y
  else clampedY volatility (sampleX j)

lemma sampleX_zero : sampleX 0 = 0 := by simp [sampleX]

lemma clampedY_sampleX_zero (v : ℝ) : clampedY v (sampleX 0) = START_Y := by
  rw [sampleX_zero]
  rw [clampedY, noise, crashDrop, START_Y]
  norm_num

lemma not_hit_zero (v : ℝ) : ¬ Hit v 0 := by
  rw [Hit, clampedY_sampleX_zero]
  rw [STOP_LOSS_Y, START_Y, STOP_LOSS_DELTA]
  norm_num

lemma protY_eq_stop (v : ℝ) {i j : ℕ} (hij : i ≤ j) (hh : Hit v i) :
    protY v j = STOP_LOSS_Y := by
  rw [protY, if_pos ⟨i, hij, hh⟩]

lemma protY_eq_clamped (v : ℝ) {j : ℕ} (h : ∀ i, i ≤ j → ¬ Hit v i) :
    protY v j = clampedY v (sampleX j) := by
  rw [protY, if_neg]
  rintro ⟨i, hij, hh⟩
  exact h i hij hh

lemma genStep_of_stopped (v : ℝ) (st : ChartResult) (i : ℕ)
    (h : st.isStoppedOut = true) :
    genStep v st i =
      { unpPoints := st.unpPoints ++ [(sampleX i, clampedY v (sampleX i))],
        protPoints := st.protPoints ++ [(sampleX i, STOP_LOSS_Y)],
        isStoppedOut := st.isStoppedOut,
        stopOutX := st.stopOutX } := by
  rw [genStep, if_pos h]

lemma genStep_of_hit (v : ℝ) (st : ChartResult) (i : ℕ)
    (h1 : st.isStoppedOut = false) (h2 : STOP_LOSS_Y ≤ clampedY v (sampleX i)) :
    genStep v st i =
      { unpPoints := st.unpPoints ++ [(sampleX i, clampedY v (sampleX i))],
        protPoints := st.protPoints ++ [(sampleX i, STOP_LOSS_Y)],
        isStoppedOut := true,
        stopOutX := sampleX i } := by
  rw [genStep, if_neg (by simp [h1]), if_pos h2]

lemma genStep_of_miss (v : ℝ) (st : ChartResult) (i : ℕ)
    (h1 : st.isStoppedOut = false) (h2 : ¬ STOP_LOSS_Y ≤ clampedY v (sampleX i)) :
    genStep v st i =
      { unpPoints := st.unpPoints ++ [(sampleX i, clampedY v (sampleX i))],
        protPoints := st.protPoints ++ [(sampleX i, clampedY v (sampleX i))],
        isStoppedOut := st.isStoppedOut,
        stopOutX := st.stopOutX } := by
  rw [genStep, if_neg (by simp [h1]), if_neg h2]

/-- Loop invariant of `generatePaths`: closed forms of the four components
of the state after `n` iterations. -/
lemma genLoop_spec (v : ℝ) (n : ℕ) :
    (genLoop v n).unpPoints =
      (List.range (n + 1)).map (fun i => (sampleX i, clampedY v (sampleX i))) ∧
    (genLoop v n).protPoints =
      (List.range (n + 1)).map (fun j => (sampleX j, protY v j)) ∧
    ((genLoop v n).isStoppedOut = true ↔ ∃ i, i ≤ n ∧ Hit v i) ∧
    ((∀ i, i ≤ n → ¬ Hit v i) → (genLoop v n).stopOutX = 0) ∧
    (∀ i, i ≤ n → Hit v i → (∀ j, j < i → ¬ Hit v j) →
      (genLoop v n).stopOutX = sampleX i) := by
  induction n with
  | zero =>
    refine ⟨?_, ?_, ?_, ?_, ?_⟩
    · show [((0 : ℝ), START_Y)] = _
      rw [List.range_succ 0, List.range_zero, List.nil_append, List.map_singleton,
        clampedY_sampleX_zero, sampleX_zero]
    · show [((0 : ℝ), START_Y)] = _
      rw [List.range_succ 0, List.range_zero, List.nil_append, List.map_singleton,
        protY_eq_clamped v (fun i hi => by rw [Nat.le_zero.mp hi]; exact not_hit_zero v),
        clampedY_sampleX_zero, sampleX_zero]
    · show (false = true) ↔ _
      constructor
      · intro h; exact absurd h (by simp)
      · rintro ⟨i, hi, hh⟩
        rw [Nat.le_zero.mp hi] at hh
        exact absurd hh (not_hit_zero v)
    · intro _; rfl
    · intro i hi hh _
      rw [Nat.le_zero.mp hi] at hh
      exact absurd hh (not_hit_zero v)
  | succ n ih =>
    obtain ⟨hu, hp, hiff, hnone, hfirst⟩ := ih
    have hgl : genLoop v (n + 1) = genStep v (genLoop v n) (n + 1) := rfl
    have hrange : List.range (n + 1 + 1) = List.range (n + 1) ++ [n + 1] :=
      List.range_succ (n + 1)
    cases hS : (genLoop v n).isStoppedOut with
    | true =>
      obtain ⟨i₀, hi₀, hh₀⟩ := hiff.mp hS
      rw [hgl, genStep_of_stopped v _ _ hS]
      refine ⟨?_, ?_, ?_, ?_, ?_⟩
      · show (genLoop v n).unpPoints ++ _ = _
        rw [hu, hrange, List.map_append, List.map_singleton]
      · show (genLoop v n).protPoints ++ _ = _
        rw [hp, hrange, List.map_append, List.map_singleton,
          protY_eq_stop v (hi₀.trans (Nat.le_succ n)) hh₀]
      · show ((genLoop v n).isStoppedOut = true) ↔ _
        rw [hS]
        exact ⟨fun _ => ⟨i₀, hi₀.trans (Nat.le_succ n), hh₀⟩, fun _ => rfl⟩
      · intro hall
        exact absurd hh₀ (hall i₀ (hi₀.trans (Nat.le_succ n)))
      · intro i hi hh hbefore
        show (genLoop v n).stopOutX = sampleX i
        have hin : i ≤ n := by
          by_contra hcon
          have : i₀ < i := lt_of_le_of_lt hi₀ (by omega)
          exact hbefore i₀ this hh₀
        exact hfirst i hin hh hbefore
    | false =>
      have hnohit : ∀ i, i ≤ n → ¬ Hit v i := by
        intro i hi hh
        have : (genLoop v n).isStoppedOut = true := hiff.mpr ⟨i, hi, hh⟩
        rw [hS] at this
        exact absurd this (by simp)
      by_cases hH : Hit v (n + 1)
      · rw [hgl, genStep_of_hit v _ _ hS hH]
        refine ⟨?_, ?_, ?_, ?_, ?_⟩
        · show (genLoop v n).unpPoints ++ _ = _
          rw [hu, hrange, List.map_append, List.map_singleton]
        · show (genLoop v n).protPoints ++ _ = _
          rw [hp, hrange, List.map_append, List.map_singleton,
            protY_eq_stop v (le_refl (n + 1)) hH]
        · exact ⟨fun _ => ⟨n + 1, le_refl _, hH⟩, fun _ => rfl⟩
        · intro hall
          exact absurd hH (hall (n + 1) (le_refl _))
        · intro i hi hh hbefore
          show sampleX (n + 1) = sampleX i
          have : i = n + 1 := by
            rcases Nat.lt_or_ge i (n + 1) with hlt | hge
            · exact absurd hh (hnohit i (by omega))
            · omega
          rw [this]
      · rw [hgl, genStep_of_miss v _ _ hS hH]
        have hnohit1 : ∀ i, i ≤ n + 1 → ¬ Hit v i := by
          intro i hi
          rcases Nat.lt_or_ge i (n + 1) with hlt | hge
          · exact hnohit i (by omega)
          · have : i = n + 1 := by omega
            rw [this]; exact hH
        refine ⟨?_, ?_, ?_, ?_, ?_⟩
        · show (genLoop v n).unpPoints ++ _ = _
          rw [hu, hrange, List.map_append, List.map_singleton]
        · show (genLoop v n).protPoints ++ _ = _
          rw [hp, hrange, List.map_append, List.map_singleton,
            protY_eq_clamped v hnohit1]
        · show ((genLoop v n).isStoppedOut = true) ↔ _
          rw [hS]
          constructor
          · intro h; exact absurd h (by simp)
          · rintro ⟨i, hi, hh⟩
            exact absurd hh (hnohit1 i hi)
        · intro _
          exact hnone hnohit
        · intro i hi hh _
          exact absurd hh (hnohit1 i hi)

lemma generatePaths_unp_getElem (v : ℝ) (i : ℕ) (hi : i ≤ steps) :
    (generatePaths v).unpPoints[i]? = some (sampleX i, clampedY v (sampleX i)) := by
  rw [generatePaths, (genLoop_spec v steps).1, List.getElem?_map,
    List.getElem?_range (by omega : i < steps + 1)]
  rfl

lemma generatePaths_prot_getElem (v : ℝ) (j : ℕ) (hj : j ≤ steps) :
    (generatePaths v).protPoints[j]? = some (sampleX j, protY v j) := by
  rw [generatePaths, (genLoop_spec v steps).2.1, List.getElem?_map,
    List.getElem?_range (by omega : j < steps + 1)]
  rfl

lemma generatePaths_unp_length (v : ℝ) :
    (generatePaths v).unpPoints.length = steps + 1 := by
  rw [generatePaths, (genLoop_spec v steps).1, List.length_map, List.length_range]

lemma generatePaths_prot_length (v : ℝ) :
    (generatePaths v).protPoints.length = steps + 1 := by
  rw [generatePaths, (genLoop_spec v steps).2.1, List.length_map, List.length_range]

lemma generatePaths_unp_getElem_inv (v : ℝ) {i : ℕ} {p : ℝ × ℝ}
    (hp : (generatePaths v).unpPoints[i]? = some p) :
    i ≤ steps ∧ p = (sampleX i, clampedY v (sampleX i)) := by
  have hi : i ≤ steps := by
    by_contra hcon
    have hnone : (generatePaths v).unpPoints[i]? = none :=
      List.getElem?_eq_none (by rw [generatePaths_unp_length]; omega)
    rw [hnone] at hp
    exact Option.noConfusion hp
  refine ⟨hi, ?_⟩
  have h := generatePaths_unp_getElem v i hi
  rw [h] at hp
  exact (Option.some.inj hp).symm

lemma generatePaths_prot_getElem_inv (v : ℝ) {j : ℕ} {q : ℝ × ℝ}
    (hq : (generatePaths v).protPoints[j]? = some q) :
    j ≤ steps ∧ q = (sampleX j, protY v j) := by
  have hj : j ≤ steps := by
    by_contra hcon
    have hnone : (generatePaths v).protPoints[j]? = none :=
      List.getElem?_eq_none (by rw [generatePaths_prot_length]; omega)
    rw [hnone] at hq
    exact Option.noConfusion hq
  refine ⟨hj, ?_⟩
  have h := generatePaths_prot_getElem v j hj
  rw [h] at hq
  exact (Option.some.inj hq).symm

/-- Claim C5.  For every volatility and every sample index `i ≤ steps`, the
unprotected trajectory's sample `i` is `(x, clamp(START_Y + sin(x/50)*10 +
(x/WIDTH)^2*200*(v/100), 0, HEIGHT))` at `x = sampleX i` — including
`i = 0`, where the formula yields exactly `START_Y`. -/
theorem generatePaths_unp_sample_formula (v : ℝ) (i : ℕ) (hi : i ≤ steps) :
    (generatePaths v).unpPoints[i]? =
      some (sampleX i,
        min (max (START_Y + Real.sin (sampleX i / 50) * 10 +
          (sampleX i / WIDTH) ^ 2 * 200 * (v / 100)) 0) HEIGHT) := by
  rw [generatePaths_unp_getElem v i hi]
  simp only [clampedY, noise, crashDrop, HEIGHT]

/-- Witness for `generatePaths_unp_sample_formula`: `v = 7`, `i = 3`. -/
theorem generatePaths_unp_sample_formula_wit :
    (generatePaths 7).unpPoints[3]? =
      some (sampleX 3,
        min (max (START_Y + Real.sin (sampleX 3 / 50) * 10 +
          (sampleX 3 / WIDTH) ^ 2 * 200 * ((7 : ℝ) / 100)) 0) HEIGHT) :=
  generatePaths_unp_sample_formula 7 3 (by norm_num [steps])

/-- Claim C4.  For every volatility in `[0, 100]`, both trajectories have
exactly `steps + 1 = 21` samples, their x coordinates are
`i * (WIDTH / steps)` for `i = 0 .. 20`, strictly increasing, starting at
`0` and ending at `WIDTH = 800`. -/
theorem generatePaths_grid (v : ℝ) (h0 : 0 ≤ v) (h1 : v ≤ 100) :
    (generatePaths v).unpPoints.length = steps + 1 ∧
    (generatePaths v).protPoints.length = steps + 1 ∧
    (generatePaths v).unpPoints.map Prod.fst =
      (List.range (steps + 1)).map (fun i : ℕ => (i : ℝ) * (WIDTH / (steps : ℝ))) ∧
    (generatePaths v).protPoints.map Prod.fst =
      (List.range (steps + 1)).map (fun i : ℕ => (i : ℝ) * (WIDTH / (steps : ℝ))) ∧
    List.Pairwise (· < ·) ((generatePaths v).unpPoints.map Prod.fst) ∧
    List.Pairwise (· < ·) ((generatePaths v).protPoints.map Prod.fst) ∧
    ((generatePaths v).unpPoints.map Prod.fst)[0]? = some 0 ∧
    ((generatePaths v).unpPoints.map Prod.fst)[steps]? = some WIDTH ∧
    ((generatePaths v).protPoints.map Prod.fst)[0]? = some 0 ∧
    ((generatePaths v).protPoints.map Prod.fst)[steps]? = some WIDTH := by
  obtain ⟨hu, hp, -, -, -⟩ := genLoop_spec v steps
  have hxu : (generatePaths v).unpPoints.map Prod.fst =
      (List.range (steps + 1)).map (fun i : ℕ => (i : ℝ) * (WIDTH / (steps : ℝ))) := by
    rw [generatePaths, hu, List.map_map]; rfl
  have hxp : (generatePaths v).protPoints.map Prod.fst =
      (List.range (steps + 1)).map (fun i : ℕ => (i : ℝ) * (WIDTH / (steps : ℝ))) := by
    rw [generatePaths, hp, List.map_map]; rfl
  have hpos : (0 : ℝ) < WIDTH / (steps : ℝ) := by
    rw [WIDTH, steps]; norm_num
  have hmono : List.Pairwise (· < ·)
      ((List.range (steps + 1)).map (fun i : ℕ => (i : ℝ) * (WIDTH / (steps : ℝ)))) := by
    rw [List.pairwise_map]
    have himp : ∀ {a b : ℕ}, a < b →
        (a : ℝ) * (WIDTH / (steps : ℝ)) < (b : ℝ) * (WIDTH / (steps : ℝ)) := by
      intro a b hab
      exact mul_lt_mul_of_pos_right (by exact_mod_cast hab) hpos
    exact List.Pairwise.imp himp (List.pairwise_lt_range (steps + 1))
  have hg0 : ((List.range (steps + 1)).map
      (fun i : ℕ => (i : ℝ) * (WIDTH / (steps : ℝ))))[0]? = some 0 := by
    rw [List.getElem?_map, List.getElem?_range (by omega : 0 < steps + 1)]
    simp
  have hgN : ((List.range (steps + 1)).map
      (fun i : ℕ => (i : ℝ) * (WIDTH / (steps : ℝ))))[steps]? = some WIDTH := by
    rw [List.getElem?_map, List.getElem?_range (by omega : steps < steps + 1)]
    simp only [Option.map_some']
    norm_num [steps, WIDTH]
  refine ⟨?_, ?_, hxu, hxp, ?_, ?_, ?_, ?_, ?_, ?_⟩
  · exact generatePaths_unp_length v
  · exact generatePaths_prot_length v
  · rw [hxu]; exact hmono
  · rw [hxp]; exact hmono
  · rw [hxu]; exact hg0
  · rw [hxu]; exact hgN
  · rw [hxp]; exact hg0
  · rw [hxp]; exact hgN

/-- Witness for `generatePaths_grid`: `v = 50`. -/
theorem generatePaths_grid_apply :
    (generatePaths 50).unpPoints.length = steps + 1 :=
  (generatePaths_grid 50 (by norm_num) (by norm_num)).1

lemma clampedY_vol_zero (x : ℝ) : clampedY 0 x = START_Y + Real.sin (x / 50) * 10 := by
  rw [clampedY, noise, crashDrop]
  have hs1 := Real.sin_le_one (x / 50)
  have hs2 := Real.neg_one_le_sin (x / 50)
  have hz : ((x / WIDTH) ^ 2 * 200) * ((0 : ℝ) / 100) = 0 := by ring
  rw [hz, add_zero]
  have h0 : (0 : ℝ) ≤ START_Y + Real.sin (x / 50) * 10 := by rw [START_Y]; nlinarith
  have h350 : START_Y + Real.sin (x / 50) * 10 ≤ 350 := by rw [START_Y]; nlinarith
  rw [max_eq_left h0, min_eq_left h350]

lemma not_hit_vol_zero (i : ℕ) : ¬ Hit 0 i := by
  rw [Hit, clampedY_vol_zero, STOP_LOSS_Y, START_Y, STOP_LOSS_DELTA]
  have hs1 := Real.sin_le_one (sampleX i / 50)
  intro hcon
  nlinarith

lemma sampleX_one : sampleX 1 = 40 := by
  norm_num [sampleX, stepSize, WIDTH, steps]

lemma hit_10000_one : Hit 10000 1 := by
  rw [Hit, sampleX_one, clampedY, noise, crashDrop, STOP_LOSS_Y, START_Y,
    STOP_LOSS_DELTA, WIDTH]
  have hs1 := Real.sin_le_one ((40 : ℝ) / 50)
  have hs2 := Real.neg_one_le_sin ((40 : ℝ) / 50)
  have hA0 : (0 : ℝ) ≤ 150 + Real.sin (40 / 50) * 10 +
      (((40 : ℝ) / 800) ^ 2 * 200) * ((10000 : ℝ) / 100) := by nlinarith
  have hA : (150 : ℝ) + Real.sin (40 / 50) * 10 +
      (((40 : ℝ) / 800) ^ 2 * 200) * ((10000 : ℝ) / 100) ≤ 350 := by nlinarith
  rw [max_eq_left hA0, min_eq_left hA]
  nlinarith

lemma unp_getElem_start (v : ℝ) :
    (generatePaths v).unpPoints[0]? = some (0, START_Y) := by
  rw [generatePaths_unp_getElem v 0 (Nat.zero_le _), clampedY_sampleX_zero, sampleX_zero]

lemma prot_getElem_start (v : ℝ) :
    (generatePaths v).protPoints[0]? = some (0, START_Y) := by
  rw [generatePaths_prot_getElem v 0 (Nat.zero_le _),
    protY_eq_clamped v (fun i hi => by rw [Nat.le_zero.mp hi]; exact not_hit_zero v),
    clampedY_sampleX_zero, sampleX_zero]

lemma prot_getElem_10000_two :
    (generatePaths 10000).protPoints[2]? = some (sampleX 2, STOP_LOSS_Y) := by
  rw [generatePaths_prot_getElem 10000 2 (by norm_num [steps]),
    protY_eq_stop 10000 (by norm_num : (1 : ℕ) ≤ 2) hit_10000_one]

lemma unp_vol_zero_below : ∀ p ∈ (generatePaths 0).unpPoints, p.2 < STOP_LOSS_Y := by
  intro p hp
  rw [generatePaths, (genLoop_spec 0 steps).1] at hp
  obtain ⟨i, hi_mem, heq⟩ := List.mem_map.mp hp
  rw [← heq]
  have h := not_hit_vol_zero i
  rw [Hit] at h
  exact not_le.mp h

/-- Claim C2.  `isStoppedOut` is true iff some unprotected sample's
(clamped) y reaches the threshold `STOP_LOSS_Y`; `stopOutX` equals the x of
the first such sample, and is `0` when no sample reaches the threshold. -/
theorem generatePaths_stop_flag_spec (v : ℝ) :
    ((generatePaths v).isStoppedOut = true ↔
      ∃ p ∈ (generatePaths v).unpPoints, STOP_LOSS_Y ≤ p.2) ∧
    (∀ i : ℕ, ∀ p : ℝ × ℝ, (generatePaths v).unpPoints[i]? = some p →
      STOP_LOSS_Y ≤ p.2 →
      (∀ j : ℕ, ∀ q : ℝ × ℝ, j < i → (generatePaths v).unpPoints[j]? = some q →
        q.2 < STOP_LOSS_Y) →
      (generatePaths v).stopOutX = p.1) ∧
    ((∀ p ∈ (generatePaths v).unpPoints, p.2 < STOP_LOSS_Y) →
      (generatePaths v).stopOutX = 0) := by
  obtain ⟨hu, -, hiff, hnone, hfirst⟩ := genLoop_spec v steps
  have hmem : ∀ p ∈ (generatePaths v).unpPoints,
      ∃ i, i ≤ steps ∧ p = (sampleX i, clampedY v (sampleX i)) := by
    intro p hp
    rw [generatePaths, hu] at hp
    obtain ⟨i, hi_mem, heq⟩ := List.mem_map.mp hp
    exact ⟨i, by have := List.mem_range.mp hi_mem; omega, heq.symm⟩
  refine ⟨?_, ?_, ?_⟩
  · constructor
    · intro h
      obtain ⟨i, hi, hh⟩ := hiff.mp h
      refine ⟨(sampleX i, clampedY v (sampleX i)), ?_, hh⟩
      rw [generatePaths, hu]
      exact List.mem_map.mpr ⟨i, List.mem_range.mpr (by omega), rfl⟩
    · rintro ⟨p, hpmem, hple⟩
      obtain ⟨i, hi, rfl⟩ := hmem p hpmem
      exact hiff.mpr ⟨i, hi, hple⟩
  · intro i p hp hthr hbefore
    obtain ⟨hi, hpe⟩ := generatePaths_unp_getElem_inv v hp
    subst hpe
    have hhit : Hit v i := hthr
    have hbef : ∀ j, j < i → ¬ Hit v j := by
      intro j hj hhj
      have hj2 : j ≤ steps := by omega
      exact absurd hhj
        (not_le.mpr (hbefore j (sampleX j, clampedY v (sampleX j)) hj
          (generatePaths_unp_getElem v j hj2)))
    exact hfirst i hi hhit hbef
  · intro hall
    apply hnone
    intro i hi hh
    have hlt := hall (sampleX i, clampedY v (sampleX i))
      (by rw [generatePaths, hu]
          exact List.mem_map.mpr ⟨i, List.mem_range.mpr (by omega), rfl⟩)
    exact absurd hh (not_le.mpr hlt)

/-- Witness for `generatePaths_stop_flag_spec`: at `v = 0` no sample
reaches the threshold and `stopOutX = 0`. -/
theorem generatePaths_stop_flag_spec_wit :
    (generatePaths 0).stopOutX = 0 :=
  (generatePaths_stop_flag_spec 0).2.2 unp_vol_zero_below

/-- Claim C3.  If the unprotected sample at index `i` reaches the stop-loss
threshold, then every protected sample at index `j ≥ i` has y exactly
`STOP_LOSS_Y` (the flat cash line). -/
theorem generatePaths_prot_pinned (v : ℝ) (i j : ℕ) (hij : i ≤ j)
    (p q : ℝ × ℝ)
    (hp : (generatePaths v).unpPoints[i]? = some p)
    (hq : (generatePaths v).protPoints[j]? = some q)
    (hthr : STOP_LOSS_Y ≤ p.2) :
    q.2 = STOP_LOSS_Y := by
  obtain ⟨hi, hpe⟩ := generatePaths_unp_getElem_inv v hp
  obtain ⟨hj, hqe⟩ := generatePaths_prot_getElem_inv v hq
  subst hpe
  subst hqe
  exact protY_eq_stop v hij hthr

/-- Witness for `generatePaths_prot_pinned`: `v = 10000`, hit at sample 1,
protected sample 2 pinned to the threshold. -/
theorem generatePaths_prot_pinned_wit :
    ((sampleX 2, STOP_LOSS_Y) : ℝ × ℝ).2 = STOP_LOSS_Y :=
  generatePaths_prot_pinned 10000 1 2 (by norm_num)
    (sampleX 1, clampedY 10000 (sampleX 1)) (sampleX 2, STOP_LOSS_Y)
    (generatePaths_unp_getElem 10000 1 (by norm_num [steps]))
    prot_getElem_10000_two hit_10000_one

/-- Claim C9.  For every real volatility (in range or not), every protected
sample's y lies in `[0, STOP_LOSS_Y]`: the protected path never exceeds the
stop-loss threshold and never goes above the chart top. -/
theorem generatePaths_prot_bounds (v : ℝ) (j : ℕ) (q : ℝ × ℝ)
    (hq : (generatePaths v).protPoints[j]? = some q) :
    0 ≤ q.2 ∧ q.2 ≤ STOP_LOSS_Y := by
  obtain ⟨hj, hqe⟩ := generatePaths_prot_getElem_inv v hq
  subst hqe
  show 0 ≤ protY v j ∧ protY v j ≤ STOP_LOSS_Y
  by_cases h : ∃ i, i ≤ j ∧ Hit v i
  · rw [protY, if_pos h]
    constructor
    · rw [STOP_LOSS_Y, START_Y, STOP_LOSS_DELTA]; norm_num
    · exact le_refl _
  · rw [protY, if_neg h]
    have hnh : ¬ Hit v j := fun hh => h ⟨j, le_refl j, hh⟩
    rw [Hit] at hnh
    constructor
    · rw [clampedY]
      exact le_min (le_max_right _ _) (by norm_num)
    · exact le_of_lt (not_le.mp hnh)

/-- Witness for `generatePaths_prot_bounds`: `v = 37`, sample 0. -/
theorem generatePaths_prot_bounds_wit :
    0 ≤ (((0 : ℝ), START_Y) : ℝ × ℝ).2 ∧
    (((0 : ℝ), START_Y) : ℝ × ℝ).2 ≤ STOP_LOSS_Y :=
  generatePaths_prot_bounds 37 0 (0, START_Y) (prot_getElem_start 37)

/-- Claim C7, counterexample.  `generatePaths` does not clamp its input:
`generatePaths (-100)` differs from `generatePaths (min (max (-100) 0) 100)
= generatePaths 0` (their last unprotected samples disagree: `factor = -1`
drives the raw y to `10·sin(16) - 50 < 0`, clamped to `0`, while at
volatility `0` the y stays near `150`). -/
theorem generatePaths_no_input_clamp_cex :
    generatePaths (-100) ≠ generatePaths (min (max (-100 : ℝ) 0) 100) := by
  have hclamp : min (max (-100 : ℝ) 0) 100 = 0 := by
    rw [max_eq_right (by norm_num : (-100 : ℝ) ≤ 0),
      min_eq_left (by norm_num : (0 : ℝ) ≤ 100)]
  rw [hclamp]
  intro heq
  have e1 := generatePaths_unp_getElem (-100) steps (le_refl _)
  have e2 := generatePaths_unp_getElem 0 steps (le_refl _)
  rw [heq, e2] at e1
  have hy : clampedY (-100) (sampleX steps) = clampedY 0 (sampleX steps) :=
    (congrArg Prod.snd (Option.some.inj e1)).symm
  have hx : sampleX steps = 800 := by norm_num [sampleX, stepSize, WIDTH, steps]
  rw [hx, clampedY_vol_zero] at hy
  have hs1 := Real.sin_le_one ((800 : ℝ) / 50)
  have hs2 := Real.neg_one_le_sin ((800 : ℝ) / 50)
  rw [clampedY, noise, crashDrop, WIDTH, START_Y] at hy
  have hneg : (150 : ℝ) + Real.sin (800 / 50) * 10 +
      (((800 : ℝ) / 800) ^ 2 * 200) * ((-100 : ℝ) / 100) ≤ 0 := by nlinarith
  rw [max_eq_right hneg, min_eq_left (by norm_num : (0 : ℝ) ≤ 350)] at hy
  linarith

/-- Claim C7, amended.  `generatePaths` applies no defensive clamping to an
out-of-range volatility (the counterexample above); instead each sample's y
is clamped into `[0, HEIGHT]`, so for EVERY real volatility every
unprotected sample's y lies in `[0, HEIGHT]`. -/
theorem generatePaths_unp_bounds (v : ℝ) (j : ℕ) (p : ℝ × ℝ)
    (hp : (generatePaths v).unpPoints[j]? = some p) :
    0 ≤ p.2 ∧ p.2 ≤ HEIGHT := by
  obtain ⟨hj, hpe⟩ := generatePaths_unp_getElem_inv v hp
  subst hpe
  show 0 ≤ clampedY v (sampleX j) ∧ clampedY v (sampleX j) ≤ HEIGHT
  rw [clampedY, HEIGHT]
  exact ⟨le_min (le_max_right _ _) (by norm_num), min_le_right _ _⟩

/-- Witness for `generatePaths_unp_bounds`: out-of-range `v = -123`,
sample 0. -/
theorem generatePaths_unp_bounds_wit :
    0 ≤ (((0 : ℝ), START_Y) : ℝ × ℝ).2 ∧
    (((0 : ℝ), START_Y) : ℝ × ℝ).2 ≤ HEIGHT :=
  generatePaths_unp_bounds (-123) 0 (0, START_Y) (unp_getElem_start (-123))

/-- Claim C6.  `generatePaths 0` never triggers the stop-loss: the crash
term vanishes, every unprotected y equals `START_Y + sin(x/50)·10` (the
clamp is the identity there), stays strictly below `STOP_LOSS_Y`,
`isStoppedOut` is false, and the protected trajectory equals the
unprotected one sample for sample. -/
theorem generatePaths_volatility_zero :
    (generatePaths 0).isStoppedOut = false ∧
    (generatePaths 0).protPoints = (generatePaths 0).unpPoints ∧
    ∀ i : ℕ, i ≤ steps →
      (generatePaths 0).unpPoints[i]? =
        some (sampleX i, START_Y + Real.sin (sampleX i / 50) * 10) ∧
      START_Y + Real.sin (sampleX i / 50) * 10 < STOP_LOSS_Y := by
  obtain ⟨hu, hp, hiff, -, -⟩ := genLoop_spec 0 steps
  refine ⟨?_, ?_, ?_⟩
  · rw [Bool.eq_false_iff]
    intro h
    obtain ⟨i, -, hh⟩ := hiff.mp h
    exact not_hit_vol_zero i hh
  · rw [generatePaths, hu, hp]
    apply List.map_congr_left
    intro j hj
    rw [protY_eq_clamped 0 (fun i _ => not_hit_vol_zero i)]
  · intro i hi
    constructor
    · rw [generatePaths_unp_getElem 0 i hi, clampedY_vol_zero]
    · have h := not_hit_vol_zero i
      rw [Hit, clampedY_vol_zero] at h
      exact not_le.mp h

/-- Witness for `generatePaths_volatility_zero`: sample `i = 3`. -/
theorem generatePaths_volatility_zero_wit :
    (generatePaths 0).unpPoints[3]? =
      some (sampleX 3, START_Y + Real.sin (sampleX 3 / 50) * 10) ∧
    START_Y + Real.sin (sampleX 3 / 50) * 10 < STOP_LOSS_Y :=
  generatePaths_volatility_zero.2.2 3 (by norm_num [steps])

end CrashSim
